import Mathlib

/-!
Verification of the interview-tracking application.

The data store (`users` and `interviews` tables of the SQLite file) is
embedded as lists of rows; each operation of `DatabaseManager`
(src/database/db.py), the signup path of `AuthManager`
(src/modules/auth.py) and the analytics computations of
`Dashboard` (src/modules/dashboard.py) and `AIInsights`
(src/modules/roadmap.py) is translated to a pure function on that state.
SQL statements are translated by their standard semantics: `WHERE` is
`filter`, `ORDER BY ... DESC` sorts by the (textual) date column
descending, `GROUP BY` groups by the distinct key values, an `UPDATE`
or `DELETE` matching no row is a no-op that raises no error.
`datetime.now()` is passed in as an explicit `now` argument, and the
bcrypt hash is passed in as an explicit function argument `hashPw`.
-/

namespace InterviewPrep

/-- A row of the `interviews` table. -/
structure Interview where
  interview_id : Nat
  user_id : Nat
  company_name : String
  role : String
  interview_date : String
  status : String
  preparation_level : Int
  notes : String
  technical_topics : String
  updated_at : String
  deriving DecidableEq

/-- A row of the `users` table. -/
structure UserRow where
  user_id : Nat
  username : String
  email : String
  password_hash : String
  deriving DecidableEq

/-- The SQLite store: the two tables the claims are about, plus the
autoincrement counter for `users.user_id`. -/
structure DB where
  users : List UserRow
  interviews : List Interview
  next_user_id : Nat
  deriving DecidableEq

/-- Modelled from the spec: the `users` table schema (database/schema.sql is
applied at startup but is not among the source files; the spec states
"identity (id, username/email unique)").  `DatabaseManager.create_user`
(src/database/db.py) runs a parameterized INSERT and returns `False` exactly
when sqlite3 raises `IntegrityError`, i.e. when the UNIQUE constraint on
username or email is violated. -/
def create_user (db : DB) (username email password_hash : String) : Bool × DB :=
  if db.users.any (fun u => u.username == username || u.email == email) then
    (false, db)
  else
    (true, { db with
               users := db.users ++ [⟨db.next_user_id, username, email, password_hash⟩],
               next_user_id := db.next_user_id + 1 })

/-- `DatabaseManager.get_user_interviews`: `SELECT * FROM interviews WHERE
user_id = ? ORDER BY interview_date DESC`.  The result relation `dateDesc`
orders rows by descending textual date. -/
def dateDesc (a b : Interview) : Prop :=
  b.interview_date ≤ a.interview_date

instance : DecidableRel dateDesc := fun a b =>
  inferInstanceAs (Decidable (b.interview_date ≤ a.interview_date))

instance : IsTotal Interview dateDesc :=
  ⟨fun a b => le_total b.interview_date a.interview_date⟩

instance : IsTrans Interview dateDesc :=
  ⟨fun _ _ _ h1 h2 => le_trans h2 h1⟩

def get_user_interviews (db : DB) (uid : Nat) : List Interview :=
  List.insertionSort dateDesc (db.interviews.filter fun i => i.user_id == uid)

/-- `DatabaseManager.get_interview_by_id`: `SELECT * FROM interviews WHERE
interview_id = ?`, `fetchone`, `None` when no row matches. -/
def get_interview_by_id (db : DB) (iid : Nat) : Option Interview :=
  db.interviews.find? fun i => i.interview_id == iid

/-- `DatabaseManager.update_interview`: a parameterized `UPDATE ... WHERE
interview_id = ?` of the seven field columns and `updated_at`.  An UPDATE
matching no rows is not an error, so the `except` branch is never taken in
this embedding and the function returns `True`. -/
def update_interview (db : DB) (iid : Nat) (company_name role interview_date status : String)
    (preparation_level : Int) (notes technical_topics now : String) : Bool × DB :=
  (true, { db with interviews := db.interviews.map fun i =>
      if i.interview_id == iid then
        { i with company_name := company_name, role := role,
                 interview_date := interview_date, status := status,
                 preparation_level := preparation_level, notes := notes,
                 technical_topics := technical_topics, updated_at := now }
      else i })

/-- `DatabaseManager.delete_interview`: `DELETE FROM interviews WHERE
interview_id = ?`; deleting no rows is not an error, so it returns `True`. -/
def delete_interview (db : DB) (iid : Nat) : Bool × DB :=
  (true, { db with interviews := db.interviews.filter fun i => i.interview_id != iid })

/-- The Python dict assignment `result[k] = v` on a string-keyed dict embedded
as an association list: overwrite the entry when the key is present, append
it otherwise. -/
def dictSet (m : List (String × Nat)) (k : String) (v : Nat) : List (String × Nat) :=
  if m.any (fun p => p.1 == k) then
    m.map fun p => if p.1 == k then (k, v) else p
  else
    m ++ [(k, v)]

/-- The dict comprehension `{status: 0 for status in ['Applied', 'Interviewed',
'Selected', 'Rejected']}` in `DatabaseManager.get_status_counts`. -/
def initStatusCounts : List (String × Nat) :=
  [("Applied", 0), ("Interviewed", 0), ("Selected", 0), ("Rejected", 0)]

/-- `DatabaseManager.get_status_counts`: `SELECT status, COUNT(*) FROM
interviews WHERE user_id = ? GROUP BY status`, then `result[row.status] =
row.count` over the groups, starting from the four zeroed enum keys.  A
group of the GROUP BY is a distinct status value of the filtered rows, and
its count is the number of filtered rows carrying that status. -/
def get_status_counts (db : DB) (uid : Nat) : List (String × Nat) :=
  let rows := db.interviews.filter fun i => i.user_id == uid
  let groups := (rows.map fun i => i.status).dedup
  groups.foldl
    (fun m s => dictSet m s (rows.countP fun i => i.status == s))
    initStatusCounts

/-- Sum of the values of a string-keyed dict (`sum(d.values())`). -/
def sumVals (m : List (String × Nat)) : Nat :=
  (m.map Prod.snd).sum

/-- The keys of a string-keyed dict (`d.keys()`). -/
def keys (m : List (String × Nat)) : List String :=
  m.map Prod.fst

/-- `AuthManager.signup` (src/modules/auth.py): field-presence, username
length ≥ 3, password length ≥ 6 and `'@' in email` validations, then
`create_user` with the bcrypt hash of the password.  Python's truthiness
test `not s` on a string is `s = ""`, and `'@' in email` is membership of
the character `'@'` in the email's characters.  The salted bcrypt hash is
abstracted as the function argument `hashPw`. -/
def signup (hashPw : String → String) (db : DB) (username email password : String) :
    (Bool × String) × DB :=
  if username = "" ∨ email = "" ∨ password = "" then
    ((false, "All fields are required"), db)
  else if username.length < 3 then
    ((false, "Username must be at least 3 characters"), db)
  else if password.length < 6 then
    ((false, "Password must be at least 6 characters"), db)
  else if !(email.data.contains '@') then
    ((false, "Invalid email format"), db)
  else
    let res := create_user db username email (hashPw password)
    if res.1 then
      ((true, "Account created successfully! Please login."), res.2)
    else
      ((false, "Username or email already exists"), res.2)

/-- `len(df[df['status'] == 'Selected'])`. -/
def countSelected (l : List Interview) : Nat :=
  l.countP fun i => i.status == "Selected"

/-- A row of the `success_data` table of
`Dashboard._show_success_rate_analysis` (src/modules/dashboard.py). -/
structure SuccessRow where
  prep_level : Nat
  success_rate : ℚ
  total : Nat
  deriving DecidableEq

/-- `Dashboard._show_success_rate_analysis`: for each `prep_level` in
`range(1, 6)` the rows with that preparation level are selected, and only
when `total > 0` a row with `selected / total * 100` is appended. -/
def success_data (df : List Interview) : List SuccessRow :=
  (List.range' 1 5).filterMap fun (lvl : Nat) =>
    let prep_df := df.filter fun i => i.preparation_level == (lvl : Int)
    if 0 < prep_df.length then
      some { prep_level := lvl,
             success_rate := (countSelected prep_df : ℚ) / (prep_df.length : ℚ) * 100,
             total := prep_df.length }
    else
      none

/-- A row of the `prep_analysis` table of
`AIInsights._show_weak_area_detection` (src/modules/roadmap.py). -/
structure PrepRow where
  prep_level : Nat
  total : Nat
  selected : Nat
  rejected : Nat
  success_rate : ℚ
  deriving DecidableEq

/-- `AIInsights._show_weak_area_detection`, preparation-vs-outcome table:
for each `prep` in `range(1, 6)` with `len(prep_df) > 0`, a row with the
totals and `selected / len(prep_df) * 100`. -/
def prep_analysis (df : List Interview) : List PrepRow :=
  (List.range' 1 5).filterMap fun (lvl : Nat) =>
    let prep_df := df.filter fun i => i.preparation_level == (lvl : Int)
    if 0 < prep_df.length then
      some { prep_level := lvl,
             total := prep_df.length,
             selected := countSelected prep_df,
             rejected := prep_df.countP fun i => i.status == "Rejected",
             success_rate := (countSelected prep_df : ℚ) / (prep_df.length : ℚ) * 100 }
    else
      none

/-- `df.tail(n)`: the last `n` rows of the data frame. -/
def tailN (l : List Interview) (n : Nat) : List Interview :=
  l.drop (l.length - n)

/-- `(len(df[df['status'] == 'Selected']) / len(df) * 100) if len(df) > 0
else 0` as it appears in `AIInsights._show_predictions`. -/
def successRate (l : List Interview) : ℚ :=
  if 0 < l.length then (countSelected l : ℚ) / (l.length : ℚ) * 100 else 0

/-- `df['preparation_level'].mean()`. -/
def avgPrep (l : List Interview) : ℚ :=
  (l.map fun i => (i.preparation_level : ℚ)).sum / (l.length : ℚ)

/-- `AIInsights._show_predictions`:
`success_prob = min(95, avg_recent_prep * 15 + recent_success_rate * 0.5)`
over `recent_df = df.tail(5)`. -/
def success_prob (df : List Interview) : ℚ :=
  min 95 (avgPrep (tailN df 5) * 15 + successRate (tailN df 5) * ((1 : ℚ) / 2))

/-- Success rate of `df.head(len(df) // 2)` in the trend analysis of
`AIInsights._show_predictions`. -/
def earlyRate (df : List Interview) : ℚ :=
  (countSelected (df.take (df.length / 2)) : ℚ) / ((df.length / 2 : Nat) : ℚ) * 100

/-- Success rate of `df.tail(len(df) // 2)` in the trend analysis of
`AIInsights._show_predictions`. -/
def lateRate (df : List Interview) : ℚ :=
  (countSelected (tailN df (df.length / 2)) : ℚ) / ((df.length / 2 : Nat) : ℚ) * 100

/-- The trend label of `AIInsights._show_predictions`: computed only when
`len(df) >= 5`; `"improving" if late_success > early_success else
"declining" if late_success < early_success else "stable"`. -/
def trend (df : List Interview) : Option String :=
  if 5 ≤ df.length then
    some (if earlyRate df < lateRate df then "improving"
          else if lateRate df < earlyRate df then "declining"
          else "stable")
  else
    none

/-- An empty store, used as a concrete test fixture. -/
def emptyDB : DB :=
  { users := [], interviews := [], next_user_id := 1 }

/-- A concrete interview row used in test fixtures. -/
def iv (iid uid : Nat) (date status : String) (prep : Int) : Interview :=
  { interview_id := iid, user_id := uid, company_name := "Acme", role := "SWE",
    interview_date := date, status := status, preparation_level := prep,
    notes := "", technical_topics := "", updated_at := "" }

/-- A one-row store used as a concrete test fixture. -/
def oneDB : DB :=
  { users := [], interviews := [iv 1 7 "2025-01-10" "Selected" 3], next_user_id := 1 }

/-- A one-row interview list used as a concrete test fixture. -/
def dfSel : List Interview := [iv 1 7 "2025-01-10" "Selected" 3]

/-- The row `success_data dfSel` produces for preparation level 3. -/
def rowSel : SuccessRow :=
  { prep_level := 3,
    success_rate :=
      (countSelected (dfSel.filter fun i => i.preparation_level == ((3 : Nat) : Int)) : ℚ) /
        ((dfSel.filter fun i => i.preparation_level == ((3 : Nat) : Int)).length : ℚ) * 100,
    total := (dfSel.filter fun i => i.preparation_level == ((3 : Nat) : Int)).length }

/-- The row `prep_analysis dfSel` produces for preparation level 3. -/
def prowSel : PrepRow :=
  { prep_level := 3,
    total := (dfSel.filter fun i => i.preparation_level == ((3 : Nat) : Int)).length,
    selected := countSelected (dfSel.filter fun i => i.preparation_level == ((3 : Nat) : Int)),
    rejected := (dfSel.filter fun i => i.preparation_level == ((3 : Nat) : Int)).countP
      fun i => i.status == "Rejected",
    success_rate :=
      (countSelected (dfSel.filter fun i => i.preparation_level == ((3 : Nat) : Int)) : ℚ) /
        ((dfSel.filter fun i => i.preparation_level == ((3 : Nat) : Int)).length : ℚ) * 100 }

/-- A five-row interview list used as a concrete test fixture. -/
def df5 : List Interview :=
  [iv 1 7 "2025-01-01" "Rejected" 1, iv 2 7 "2025-01-02" "Rejected" 1,
   iv 3 7 "2025-01-03" "Selected" 1, iv 4 7 "2025-01-04" "Selected" 1,
   iv 5 7 "2025-01-05" "Selected" 1]

theorem keys_cons (p : String × Nat) (m : List (String × Nat)) :
    keys (p :: m) = p.1 :: keys m := rfl

theorem sumVals_cons (p : String × Nat) (m : List (String × Nat)) :
    sumVals (p :: m) = p.2 + sumVals m := rfl

theorem dictSet_cons_of_ne (p : String × Nat) (m : List (String × Nat)) (k : String) (v : Nat)
    (h : p.1 ≠ k) : dictSet (p :: m) k v = p :: dictSet m k v := by
  have hb : (p.1 == k) = false := beq_eq_false_iff_ne.mpr h
  by_cases hany : m.any (fun q => q.1 == k) = true
  · simp [dictSet, hb, hany]
    exact fun e => absurd e h
  · simp [dictSet, hb, hany]

theorem map_set_of_not_mem_keys (m : List (String × Nat)) (k : String) (v : Nat)
    (h : k ∉ keys m) :
    (m.map fun q => if q.1 == k then (k, v) else q) = m := by
  induction m with
  | nil => rfl
  | cons q m ih =>
    rw [keys_cons] at h
    have h1 : q.1 ≠ k := fun e => h (e ▸ List.mem_cons_self _ _)
    have h2 : k ∉ keys m := fun hk => h (List.mem_cons_of_mem _ hk)
    rw [List.map_cons, ih h2]
    simp [beq_eq_false_iff_ne.mpr h1]

theorem sumVals_dictSet (m : List (String × Nat)) (k : String) (v : Nat)
    (hnd : (keys m).Nodup) (h0 : ∀ p ∈ m, p.1 = k → p.2 = 0) :
    sumVals (dictSet m k v) = sumVals m + v := by
  induction m with
  | nil => simp [dictSet, sumVals]
  | cons p m ih =>
    rw [keys_cons, List.nodup_cons] at hnd
    by_cases hpk : p.1 = k
    · have hp0 : p.2 = 0 := h0 p (List.mem_cons_self _ _) hpk
      have hknm : k ∉ keys m := hpk ▸ hnd.1
      have hany : (p :: m).any (fun q => q.1 == k) = true := by
        simp [List.any_cons, hpk]
      unfold dictSet
      rw [if_pos hany, List.map_cons, map_set_of_not_mem_keys m k v hknm]
      simp [sumVals_cons, hpk, hp0]
      omega
    · rw [dictSet_cons_of_ne p m k v hpk]
      have hrec : sumVals (dictSet m k v) = sumVals m + v :=
        ih hnd.2 (fun q hq hqk => h0 q (List.mem_cons_of_mem _ hq) hqk)
      rw [sumVals_cons, sumVals_cons, hrec]
      omega

theorem mem_dictSet (m : List (String × Nat)) (k : String) (v : Nat) :
    ∀ p ∈ dictSet m k v, p = (k, v) ∨ p ∈ m := by
  intro p hp
  unfold dictSet at hp
  split at hp
  · rcases List.mem_map.mp hp with ⟨q, hq, he⟩
    by_cases hqk : q.1 = k
    · left
      rw [← he]
      simp [hqk]
    · right
      rw [← he]
      simpa [beq_eq_false_iff_ne.mpr hqk] using hq
  · rcases List.mem_append.mp hp with h | h
    · right
      exact h
    · left
      simpa using h

theorem keys_map_set (m : List (String × Nat)) (k : String) (v : Nat) :
    keys (m.map fun q => if q.1 == k then (k, v) else q) = keys m := by
  unfold keys
  rw [List.map_map]
  refine List.map_congr_left fun q _ => ?_
  by_cases hqk : q.1 = k <;> simp [hqk]

theorem mem_keys_dictSet (m : List (String × Nat)) (k : String) (v : Nat)
    (s : String) (hs : s ∈ keys m) : s ∈ keys (dictSet m k v) := by
  unfold dictSet
  split
  · rw [keys_map_set]
    exact hs
  · unfold keys at hs ⊢
    rw [List.map_append]
    exact List.mem_append_left _ hs

theorem nodup_keys_dictSet (m : List (String × Nat)) (k : String) (v : Nat)
    (hnd : (keys m).Nodup) : (keys (dictSet m k v)).Nodup := by
  unfold dictSet
  split
  · rw [keys_map_set]
    exact hnd
  · rename_i hany
    have hk : k ∉ keys m := by
      intro hkm
      rcases List.mem_map.mp hkm with ⟨q, hq, he⟩
      exact hany (List.any_eq_true.mpr ⟨q, hq, by simp [he]⟩)
    unfold keys
    simp only [List.map_append, List.map_cons, List.map_nil]
    refine List.Nodup.append hnd (List.nodup_singleton k) ?_
    rw [List.disjoint_singleton]
    exact hk

theorem sumVals_foldl_dictSet (f : String → Nat) :
    ∀ (gs : List String) (m : List (String × Nat)),
      (keys m).Nodup → gs.Nodup → (∀ p ∈ m, p.1 ∈ gs → p.2 = 0) →
      sumVals (gs.foldl (fun acc s => dictSet acc s (f s)) m) = sumVals m + (gs.map f).sum
  | [], m, _, _, _ => by simp
  | g :: gs, m, hnd, hgs, h0 => by
    rw [List.foldl_cons]
    rw [List.nodup_cons] at hgs
    have hstep : sumVals (dictSet m g (f g)) = sumVals m + f g :=
      sumVals_dictSet m g (f g) hnd
        (fun p hp hpk => h0 p hp (by rw [hpk]; exact List.mem_cons_self _ _))
    have hnd' : (keys (dictSet m g (f g))).Nodup := nodup_keys_dictSet m g (f g) hnd
    have h0' : ∀ p ∈ dictSet m g (f g), p.1 ∈ gs → p.2 = 0 := by
      intro p hp hmem
      rcases mem_dictSet m g (f g) p hp with rfl | hpm
      · exact absurd hmem hgs.1
      · exact h0 p hpm (List.mem_cons_of_mem _ hmem)
    rw [sumVals_foldl_dictSet f gs (dictSet m g (f g)) hnd' hgs.2 h0', hstep]
    rw [List.map_cons, List.sum_cons]
    omega

theorem mem_keys_foldl_dictSet (f : String → Nat) :
    ∀ (gs : List String) (m : List (String × Nat)) (s : String),
      s ∈ keys m → s ∈ keys (gs.foldl (fun acc g => dictSet acc g (f g)) m)
  | [], _, _, hs => by simpa using hs
  | g :: gs, m, s, hs => by
    rw [List.foldl_cons]
    exact mem_keys_foldl_dictSet f gs _ s (mem_keys_dictSet m g (f g) s hs)

/-- C4: for every user id, `get_user_interviews` returns exactly the stored
interviews whose `user_id` equals that id (as a permutation of the filtered
table, hence the same members), and the result is sorted by descending
`interview_date`. -/
theorem get_user_interviews_exact_and_sorted (db : DB) (uid : Nat) :
    (get_user_interviews db uid).Perm
      (db.interviews.filter fun i => i.user_id == uid) ∧
    (∀ x : Interview, x ∈ get_user_interviews db uid ↔
      x ∈ db.interviews ∧ x.user_id = uid) ∧
    List.Sorted dateDesc (get_user_interviews db uid) := by
  refine ⟨List.perm_insertionSort dateDesc _, fun x => ?_, List.sorted_insertionSort dateDesc _⟩
  unfold get_user_interviews
  rw [List.mem_insertionSort, List.mem_filter]
  simp

/-- C5: deleting an interview id that is present in the store succeeds, a
subsequent `get_interview_by_id` for the same id returns `none`, and the id
no longer appears in `get_user_interviews` for any user. -/
theorem delete_then_gone (db : DB) (iid : Nat)
    (_hmem : ∃ x ∈ db.interviews, x.interview_id = iid) :
    (delete_interview db iid).1 = true ∧
    get_interview_by_id (delete_interview db iid).2 iid = none ∧
    ∀ uid : Nat, ∀ y ∈ get_user_interviews (delete_interview db iid).2 uid,
      y.interview_id ≠ iid := by
  refine ⟨rfl, ?_, ?_⟩
  · unfold get_interview_by_id delete_interview
    rw [List.find?_eq_none]
    intro x hx
    rw [List.mem_filter] at hx
    simpa using hx.2
  · intro uid y hy
    unfold get_user_interviews delete_interview at hy
    rw [List.mem_insertionSort, List.mem_filter] at hy
    rw [List.mem_filter] at hy
    simpa using hy.1.2

/-- C5 witness: deleting id 1 from the one-row store. -/
theorem delete_then_gone_witness :
    (∃ x ∈ oneDB.interviews, x.interview_id = 1) ∧
    ((delete_interview oneDB 1).1 = true ∧
     get_interview_by_id (delete_interview oneDB 1).2 1 = none ∧
     ∀ uid : Nat, ∀ y ∈ get_user_interviews (delete_interview oneDB 1).2 uid,
       y.interview_id ≠ 1) :=
  ⟨by decide, delete_then_gone oneDB 1 (by decide)⟩

/-- C7: a registration attempt with a password shorter than 6 characters
fails and leaves the store unchanged, whatever the other fields are. -/
theorem signup_short_password_rejected (hashPw : String → String) (db : DB)
    (username email password : String) (h : password.length < 6) :
    (signup hashPw db username email password).1.1 = false ∧
    (signup hashPw db username email password).2 = db := by
  unfold signup
  by_cases h1 : username = "" ∨ email = "" ∨ password = ""
  · rw [if_pos h1]
    exact ⟨rfl, rfl⟩
  · rw [if_neg h1]
    by_cases h2 : username.length < 3
    · rw [if_pos h2]
      exact ⟨rfl, rfl⟩
    · rw [if_neg h2, if_pos h]
      exact ⟨rfl, rfl⟩

/-- C7 witness: password "abc" is rejected for any otherwise-valid fields. -/
theorem signup_short_password_rejected_witness :
    ("abc" : String).length < 6 ∧
    ((signup id emptyDB "bob" "b@x.com" "abc").1.1 = false ∧
     (signup id emptyDB "bob" "b@x.com" "abc").2 = emptyDB) :=
  ⟨by decide, signup_short_password_rejected id emptyDB "bob" "b@x.com" "abc" (by decide)⟩

/-- C9: the store-layer update and delete are keyed only by the interview id
and check nothing about ownership: for any row carrying the id — whatever
its `user_id` — update succeeds and rewrites that row's fields (keeping its
owner), and delete succeeds and removes every row with that id. -/
theorem update_delete_ignore_owner (db : DB) (iid : Nat) (x : Interview)
    (hx : x ∈ db.interviews) (hid : x.interview_id = iid)
    (c r d s : String) (p : Int) (n t now : String) :
    (update_interview db iid c r d s p n t now).1 = true ∧
    { x with company_name := c, role := r, interview_date := d, status := s,
             preparation_level := p, notes := n, technical_topics := t,
             updated_at := now } ∈ (update_interview db iid c r d s p n t now).2.interviews ∧
    (delete_interview db iid).1 = true ∧
    ∀ y ∈ (delete_interview db iid).2.interviews, y.interview_id ≠ iid := by
  refine ⟨rfl, ?_, rfl, ?_⟩
  · unfold update_interview
    refine List.mem_map.mpr ⟨x, hx, ?_⟩
    simp [hid]
  · intro y hy
    unfold delete_interview at hy
    rw [List.mem_filter] at hy
    simpa using hy.2

/-- C9 witness: the row with id 1 in the one-row store belongs to user 7;
the store-layer operations act on it regardless. -/
theorem update_delete_ignore_owner_witness :
    (iv 1 7 "2025-01-10" "Selected" 3) ∈ oneDB.interviews ∧
    (iv 1 7 "2025-01-10" "Selected" 3).interview_id = 1 ∧
    ((update_interview oneDB 1 "B" "QA" "2025-02-02" "Rejected" 2 "n" "t" "now").1 = true ∧
     { iv 1 7 "2025-01-10" "Selected" 3 with
         company_name := "B", role := "QA", interview_date := "2025-02-02",
         status := "Rejected", preparation_level := 2, notes := "n",
         technical_topics := "t", updated_at := "now" } ∈
       (update_interview oneDB 1 "B" "QA" "2025-02-02" "Rejected" 2 "n" "t" "now").2.interviews ∧
     (delete_interview oneDB 1).1 = true ∧
     ∀ y ∈ (delete_interview oneDB 1).2.interviews, y.interview_id ≠ 1) :=
  ⟨by decide, by decide,
   update_delete_ignore_owner oneDB 1 (iv 1 7 "2025-01-10" "Selected" 3)
     (by decide) (by decide) "B" "QA" "2025-02-02" "Rejected" 2 "n" "t" "now"⟩

/-- C1 counterexample: updating id 1 in the empty store leaves the store
unchanged but returns `true`, not the not-found/false result the claim
states: an UPDATE matching no rows raises no error in sqlite3. -/
theorem update_nonexistent_returns_true :
    (update_interview emptyDB 1 "Acme" "SWE" "2025-01-10" "Applied" 3 "" "" "t").1 = true ∧
    (update_interview emptyDB 1 "Acme" "SWE" "2025-01-10" "Applied" 3 "" "" "t").2 = emptyDB := by
  exact ⟨rfl, rfl⟩

/-- C1 (amended): updating an interview by an id that no row carries leaves
the interviews table unchanged (no row inserted, modified, or removed), but
the call still returns `true` — sqlite3 raises nothing on an UPDATE
matching zero rows, so the error branch never fires. -/
theorem update_nonexistent_noop (db : DB) (iid : Nat)
    (c r d s : String) (p : Int) (n t now : String)
    (h : ∀ i ∈ db.interviews, i.interview_id ≠ iid) :
    (update_interview db iid c r d s p n t now).1 = true ∧
    (update_interview db iid c r d s p n t now).2 = db := by
  refine ⟨rfl, ?_⟩
  unfold update_interview
  have hmap : (db.interviews.map fun i =>
      if i.interview_id == iid then
        { i with company_name := c, role := r, interview_date := d, status := s,
                 preparation_level := p, notes := n, technical_topics := t,
                 updated_at := now }
      else i) = db.interviews := by
    have := List.map_congr_left (l := db.interviews)
      (f := fun i =>
        if i.interview_id == iid then
          { i with company_name := c, role := r, interview_date := d, status := s,
                   preparation_level := p, notes := n, technical_topics := t,
                   updated_at := now }
        else i)
      (g := fun i => i)
      (fun a ha => by simp [beq_eq_false_iff_ne.mpr (h a ha)])
    simpa using this
  rw [hmap]

/-- C1 witness for the amended claim: the empty store holds no id 1. -/
theorem update_nonexistent_noop_witness :
    (∀ i ∈ emptyDB.interviews, i.interview_id ≠ 1) ∧
    ((update_interview emptyDB 1 "Acme" "SWE" "2025-01-10" "Applied" 3 "" "" "t").1 = true ∧
     (update_interview emptyDB 1 "Acme" "SWE" "2025-01-10" "Applied" 3 "" "" "t").2 = emptyDB) :=
  ⟨by decide, update_nonexistent_noop emptyDB 1 "Acme" "SWE" "2025-01-10" "Applied" 3 "" "" "t"
    (by decide)⟩

theorem status_counts_core (rows : List Interview) :
    sumVals ((rows.map fun i => i.status).dedup.foldl
        (fun m s => dictSet m s (rows.countP fun i => i.status == s)) initStatusCounts)
      = rows.length ∧
    ∀ s ∈ keys initStatusCounts,
      s ∈ keys ((rows.map fun i => i.status).dedup.foldl
        (fun m s => dictSet m s (rows.countP fun i => i.status == s)) initStatusCounts) := by
  have hcount : ∀ s : String,
      (rows.countP fun i => i.status == s) = (rows.map fun i => i.status).count s := by
    intro s
    rw [List.count_eq_countP, List.countP_map]
    rfl
  constructor
  · have hsum := sumVals_foldl_dictSet (fun s => rows.countP fun i => i.status == s)
      ((rows.map fun i => i.status).dedup) initStatusCounts
      (by decide) (List.nodup_dedup _)
      (fun p hp _ => by fin_cases hp <;> rfl)
    refine hsum.trans ?_
    have hmapeq : ((rows.map fun i => i.status).dedup.map
        fun s => rows.countP fun i => i.status == s) =
        ((rows.map fun i => i.status).dedup.map
          fun s => (rows.map fun i => i.status).count s) :=
      List.map_congr_left fun s _ => hcount s
    rw [hmapeq, List.sum_map_count_dedup_eq_length, List.length_map]
    have h0 : sumVals initStatusCounts = 0 := rfl
    omega
  · intro s hs
    exact mem_keys_foldl_dictSet (fun s => rows.countP fun i => i.status == s)
      ((rows.map fun i => i.status).dedup) initStatusCounts s hs

/-- C2: for every user and store, whatever status strings the rows carry,
the values of the returned status-count dict sum to the number of that
user's interviews, and the four enum keys Applied, Interviewed, Selected,
Rejected are all present as keys even when their count is zero. -/
theorem status_counts_sum_and_keys (db : DB) (uid : Nat) :
    sumVals (get_status_counts db uid) =
      (db.interviews.filter fun i => i.user_id == uid).length ∧
    "Applied" ∈ keys (get_status_counts db uid) ∧
    "Interviewed" ∈ keys (get_status_counts db uid) ∧
    "Selected" ∈ keys (get_status_counts db uid) ∧
    "Rejected" ∈ keys (get_status_counts db uid) := by
  obtain ⟨h1, h2⟩ := status_counts_core (db.interviews.filter fun i => i.user_id == uid)
  exact ⟨h1, h2 _ (by decide), h2 _ (by decide), h2 _ (by decide), h2 _ (by decide)⟩

/-- C2 witness: the claim theorem instantiated at the one-row store. -/
theorem status_counts_sum_and_keys_witness :
    sumVals (get_status_counts oneDB 7) =
      (oneDB.interviews.filter fun i => i.user_id == 7).length ∧
    "Applied" ∈ keys (get_status_counts oneDB 7) ∧
    "Interviewed" ∈ keys (get_status_counts oneDB 7) ∧
    "Selected" ∈ keys (get_status_counts oneDB 7) ∧
    "Rejected" ∈ keys (get_status_counts oneDB 7) :=
  status_counts_sum_and_keys oneDB 7

/-- C4 witness: the claim theorem instantiated at the one-row store. -/
theorem get_user_interviews_exact_and_sorted_witness :
    (get_user_interviews oneDB 7).Perm
      (oneDB.interviews.filter fun i => i.user_id == 7) ∧
    (∀ x : Interview, x ∈ get_user_interviews oneDB 7 ↔
      x ∈ oneDB.interviews ∧ x.user_id = 7) ∧
    List.Sorted dateDesc (get_user_interviews oneDB 7) :=
  get_user_interviews_exact_and_sorted oneDB 7

/-- C3: a row of the success-rate-by-preparation-level table — in the
dashboard's `success_data` and in the roadmap's `prep_analysis` alike — is
produced only for a level in 1..5 holding at least one interview, so its
Total is positive, and its rate is selected divided by that positive total
times 100. -/
theorem success_rows_guarded (df : List Interview) (row : SuccessRow) (prow : PrepRow)
    (hrow : row ∈ success_data df) (hprow : prow ∈ prep_analysis df) :
    (0 < row.total ∧ 1 ≤ row.prep_level ∧ row.prep_level ≤ 5 ∧
     row.total = (df.filter fun i => i.preparation_level == (row.prep_level : Int)).length ∧
     row.success_rate =
       (countSelected (df.filter fun i => i.preparation_level == (row.prep_level : Int)) : ℚ) /
         (row.total : ℚ) * 100) ∧
    (0 < prow.total ∧ 1 ≤ prow.prep_level ∧ prow.prep_level ≤ 5 ∧
     prow.total = (df.filter fun i => i.preparation_level == (prow.prep_level : Int)).length ∧
     prow.selected =
       countSelected (df.filter fun i => i.preparation_level == (prow.prep_level : Int)) ∧
     prow.success_rate = (prow.selected : ℚ) / (prow.total : ℚ) * 100) := by
  constructor
  · unfold success_data at hrow
    rcases List.mem_filterMap.mp hrow with ⟨lvl, hlvl, hsome⟩
    rcases List.mem_range'.mp hlvl with ⟨i, hi, hie⟩
    by_cases hpos : 0 < (df.filter fun j => j.preparation_level == (lvl : Int)).length
    · rw [if_pos hpos] at hsome
      cases Option.some.inj hsome
      refine ⟨hpos, ?_, ?_, rfl, rfl⟩
      · show 1 ≤ lvl
        omega
      · show lvl ≤ 5
        omega
    · rw [if_neg hpos] at hsome
      cases hsome
  · unfold prep_analysis at hprow
    rcases List.mem_filterMap.mp hprow with ⟨lvl, hlvl, hsome⟩
    rcases List.mem_range'.mp hlvl with ⟨i, hi, hie⟩
    by_cases hpos : 0 < (df.filter fun j => j.preparation_level == (lvl : Int)).length
    · rw [if_pos hpos] at hsome
      cases Option.some.inj hsome
      refine ⟨hpos, ?_, ?_, rfl, rfl, rfl⟩
      · show 1 ≤ lvl
        omega
      · show lvl ≤ 5
        omega
    · rw [if_neg hpos] at hsome
      cases hsome

/-- C3 witness: the rows the two tables produce for the one-row fixture. -/
theorem success_rows_guarded_witness :
    rowSel ∈ success_data dfSel ∧ prowSel ∈ prep_analysis dfSel ∧
    ((0 < rowSel.total ∧ 1 ≤ rowSel.prep_level ∧ rowSel.prep_level ≤ 5 ∧
      rowSel.total =
        (dfSel.filter fun i => i.preparation_level == (rowSel.prep_level : Int)).length ∧
      rowSel.success_rate =
        (countSelected (dfSel.filter fun i =>
          i.preparation_level == (rowSel.prep_level : Int)) : ℚ) /
          (rowSel.total : ℚ) * 100) ∧
     (0 < prowSel.total ∧ 1 ≤ prowSel.prep_level ∧ prowSel.prep_level ≤ 5 ∧
      prowSel.total =
        (dfSel.filter fun i => i.preparation_level == (prowSel.prep_level : Int)).length ∧
      prowSel.selected =
        countSelected (dfSel.filter fun i =>
          i.preparation_level == (prowSel.prep_level : Int)) ∧
      prowSel.success_rate = (prowSel.selected : ℚ) / (prowSel.total : ℚ) * 100)) :=
  ⟨List.mem_singleton.mpr rfl, List.mem_singleton.mpr rfl,
   success_rows_guarded dfSel rowSel prowSel
     (List.mem_singleton.mpr rfl) (List.mem_singleton.mpr rfl)⟩

/-- C10: the predicted success probability is the cap at 95 of average
recent preparation times 15 plus recent success rate times one half, both
over the last 5 interviews: it never exceeds 95, equals the uncapped
formula when that is at most 95, and equals 95 when the formula reaches
the cap. -/
theorem success_prob_capped (df : List Interview) :
    success_prob df ≤ 95 ∧
    (avgPrep (tailN df 5) * 15 + successRate (tailN df 5) * ((1 : ℚ) / 2) ≤ 95 →
      success_prob df = avgPrep (tailN df 5) * 15 + successRate (tailN df 5) * ((1 : ℚ) / 2)) ∧
    (95 ≤ avgPrep (tailN df 5) * 15 + successRate (tailN df 5) * ((1 : ℚ) / 2) →
      success_prob df = 95) :=
  ⟨min_le_left _ _, fun h => min_eq_right h, fun h => min_eq_left h⟩

/-- C10 witness: the claim theorem instantiated at the one-row fixture. -/
theorem success_prob_capped_witness :
    success_prob dfSel ≤ 95 ∧
    (avgPrep (tailN dfSel 5) * 15 + successRate (tailN dfSel 5) * ((1 : ℚ) / 2) ≤ 95 →
      success_prob dfSel =
        avgPrep (tailN dfSel 5) * 15 + successRate (tailN dfSel 5) * ((1 : ℚ) / 2)) ∧
    (95 ≤ avgPrep (tailN dfSel 5) * 15 + successRate (tailN dfSel 5) * ((1 : ℚ) / 2) →
      success_prob dfSel = 95) :=
  success_prob_capped dfSel

/-- C8: whenever the trend is computed (the code computes it exactly for
lists of length at least 5), it compares the Selected rate of the first
half (`head (n/2)`) with that of the last half (`tail (n/2)`), and the
label is "improving" exactly when the late rate exceeds the early rate,
"declining" exactly when it is lower, and "stable" exactly when they are
equal. -/
theorem trend_labels (df : List Interview) (h : 5 ≤ df.length) :
    (trend df = some "improving" ↔ earlyRate df < lateRate df) ∧
    (trend df = some "declining" ↔ lateRate df < earlyRate df) ∧
    (trend df = some "stable" ↔ earlyRate df = lateRate df) := by
  unfold trend
  rw [if_pos h]
  rcases lt_trichotomy (earlyRate df) (lateRate df) with hlt | heq | hgt
  · rw [if_pos hlt]
    exact ⟨iff_of_true rfl hlt,
           iff_of_false (by simp) (not_lt.mpr (le_of_lt hlt)),
           iff_of_false (by simp) (ne_of_lt hlt)⟩
  · rw [if_neg (heq ▸ lt_irrefl _), if_neg (heq ▸ lt_irrefl _)]
    exact ⟨iff_of_false (by simp) (heq ▸ lt_irrefl _),
           iff_of_false (by simp) (heq ▸ lt_irrefl _),
           iff_of_true rfl heq⟩
  · rw [if_neg (not_lt.mpr (le_of_lt hgt)), if_pos hgt]
    exact ⟨iff_of_false (by simp) (not_lt.mpr (le_of_lt hgt)),
           iff_of_true rfl hgt,
           iff_of_false (by simp) (ne_of_gt hgt)⟩

/-- C8 witness: the five-row fixture is long enough for a trend. -/
theorem trend_labels_witness :
    5 ≤ df5.length ∧
    ((trend df5 = some "improving" ↔ earlyRate df5 < lateRate df5) ∧
     (trend df5 = some "declining" ↔ lateRate df5 < earlyRate df5) ∧
     (trend df5 = some "stable" ↔ earlyRate df5 = lateRate df5)) :=
  ⟨by decide, trend_labels df5 (by decide)⟩

/-- C6: registering a valid account and then registering again with the
same email: the first call succeeds, the second returns failure with the
already-exists message and leaves the store as it was, and exactly one
user row carries that email afterwards. -/
theorem duplicate_email_second_fails (hf1 hf2 : String → String) (db : DB)
    (u1 e p1 u2 p2 : String)
    (hu1 : 3 ≤ u1.length) (hp1 : 6 ≤ p1.length)
    (hu2 : 3 ≤ u2.length) (hp2 : 6 ≤ p2.length)
    (he : e.data.contains '@' = true)
    (hfresh : ∀ u ∈ db.users, u.username ≠ u1 ∧ u.email ≠ e) :
    (signup hf1 db u1 e p1).1.1 = true ∧
    (signup hf2 (signup hf1 db u1 e p1).2 u2 e p2).1 =
      (false, "Username or email already exists") ∧
    ((signup hf2 (signup hf1 db u1 e p1).2 u2 e p2).2.users.countP
      fun u => u.email == e) = 1 := by
  have hne1 : u1 ≠ "" := by
    intro hx
    rw [hx] at hu1
    simp at hu1
  have hne2 : u2 ≠ "" := by
    intro hx
    rw [hx] at hu2
    simp at hu2
  have hpne1 : p1 ≠ "" := by
    intro hx
    rw [hx] at hp1
    simp at hp1
  have hpne2 : p2 ≠ "" := by
    intro hx
    rw [hx] at hp2
    simp at hp2
  have hene : e ≠ "" := by
    intro hx
    rw [hx] at he
    exact absurd he (by decide)
  set nu : UserRow := ⟨db.next_user_id, u1, e, hf1 p1⟩ with hnu
  set db1 : DB :=
    { db with users := db.users ++ [nu], next_user_id := db.next_user_id + 1 } with hdb1
  have hany1 : (db.users.any fun u => u.username == u1 || u.email == e) = false := by
    rw [List.any_eq_false]
    intro u hu
    simp only [Bool.or_eq_true, beq_iff_eq]
    push_neg
    exact ⟨(hfresh u hu).1, (hfresh u hu).2⟩
  have ecr1 : create_user db u1 e (hf1 p1) = (true, db1) := by
    unfold create_user
    rw [if_neg (by simp [hany1]), hdb1, hnu]
  have e1 : signup hf1 db u1 e p1 =
      ((true, "Account created successfully! Please login."), db1) := by
    unfold signup
    rw [if_neg (by push_neg; exact ⟨hne1, hene, hpne1⟩), if_neg (by omega),
        if_neg (by omega), if_neg (by rw [he]; decide), ecr1]
    rfl
  have hany2 : (db1.users.any fun u => u.username == u2 || u.email == e) = true := by
    refine List.any_eq_true.mpr ⟨nu, ?_, ?_⟩
    · rw [hdb1]
      exact List.mem_append_right _ (List.mem_singleton.mpr rfl)
    · simp [hnu]
  have ecr2 : create_user db1 u2 e (hf2 p2) = (false, db1) := by
    unfold create_user
    rw [if_pos hany2]
  have e2 : signup hf2 db1 u2 e p2 =
      ((false, "Username or email already exists"), db1) := by
    unfold signup
    rw [if_neg (by push_neg; exact ⟨hne2, hene, hpne2⟩), if_neg (by omega),
        if_neg (by omega), if_neg (by rw [he]; decide), ecr2]
    rfl
  have hc0 : db.users.countP (fun u => u.email == e) = 0 := by
    rw [List.countP_eq_zero]
    intro u hu
    simp only [beq_iff_eq]
    exact (hfresh u hu).2
  refine ⟨?_, ?_, ?_⟩
  · rw [e1]
  · rw [e1]
    show (signup hf2 db1 u2 e p2).1 = _
    rw [e2]
  · rw [e1]
    show ((signup hf2 db1 u2 e p2).2.users.countP fun u => u.email == e) = 1
    rw [e2]
    show ((db.users ++ [nu]).countP fun u => u.email == e) = 1
    rw [List.countP_append, hc0]
    simp [hnu]

/-- C6 witness: alice registers a@x.com, then bob tries the same email. -/
theorem duplicate_email_second_fails_witness :
    3 ≤ ("alice" : String).length ∧ 6 ≤ ("secret1" : String).length ∧
    3 ≤ ("bob" : String).length ∧ 6 ≤ ("secret2" : String).length ∧
    ("a@x.com" : String).data.contains '@' = true ∧
    (∀ u ∈ emptyDB.users, u.username ≠ "alice" ∧ u.email ≠ "a@x.com") ∧
    ((signup id emptyDB "alice" "a@x.com" "secret1").1.1 = true ∧
     (signup id (signup id emptyDB "alice" "a@x.com" "secret1").2
        "bob" "a@x.com" "secret2").1 =
       (false, "Username or email already exists") ∧
     ((signup id (signup id emptyDB "alice" "a@x.com" "secret1").2
        "bob" "a@x.com" "secret2").2.users.countP
       fun u => u.email == "a@x.com") = 1) :=
  ⟨by decide, by decide, by decide, by decide, by decide, by decide,
   duplicate_email_second_fails id id emptyDB "alice" "a@x.com" "secret1" "bob" "secret2"
     (by decide) (by decide) (by decide) (by decide) (by decide) (by decide)⟩

end InterviewPrep
